import Mathlib

/-!
Shallow embedding of the SPH fluid simulator core:
`src/sim/SPH.h` and `src/geometry/ParticleGenerator.cpp`.

C++ `float` arithmetic is modelled by exact real arithmetic; `std::vector`
buffers become `List`s; the sequential (non-TBB) elaboration of the
per-particle loops is translated as left folds.  Components of the
repository that are only declared here (Kernel.h, Grid.h, SDF.h,
VoxelGrid.h, the vendored pcg32 header) are modelled from the
specification and marked as such in their doc comments.
-/

namespace PBS

noncomputable section

/-- A 3-component vector of reals, modelling `Vector3f`. -/
@[ext]
structure Vec3 where
  x : ℝ
  y : ℝ
  z : ℝ

namespace Vec3

instance : Zero Vec3 := ⟨⟨0, 0, 0⟩⟩
instance : Add Vec3 := ⟨fun a b => ⟨a.x + b.x, a.y + b.y, a.z + b.z⟩⟩
instance : Sub Vec3 := ⟨fun a b => ⟨a.x - b.x, a.y - b.y, a.z - b.z⟩⟩
instance : Neg Vec3 := ⟨fun a => ⟨-a.x, -a.y, -a.z⟩⟩
instance : SMul ℝ Vec3 := ⟨fun r a => ⟨r * a.x, r * a.y, r * a.z⟩⟩

@[simp] theorem zero_x : (0 : Vec3).x = 0 := rfl
@[simp] theorem zero_y : (0 : Vec3).y = 0 := rfl
@[simp] theorem zero_z : (0 : Vec3).z = 0 := rfl
@[simp] theorem add_x (a b : Vec3) : (a + b).x = a.x + b.x := rfl
@[simp] theorem add_y (a b : Vec3) : (a + b).y = a.y + b.y := rfl
@[simp] theorem add_z (a b : Vec3) : (a + b).z = a.z + b.z := rfl
@[simp] theorem sub_x (a b : Vec3) : (a - b).x = a.x - b.x := rfl
@[simp] theorem sub_y (a b : Vec3) : (a - b).y = a.y - b.y := rfl
@[simp] theorem sub_z (a b : Vec3) : (a - b).z = a.z - b.z := rfl
@[simp] theorem neg_x (a : Vec3) : (-a).x = -a.x := rfl
@[simp] theorem neg_y (a : Vec3) : (-a).y = -a.y := rfl
@[simp] theorem neg_z (a : Vec3) : (-a).z = -a.z := rfl
@[simp] theorem smul_x (r : ℝ) (a : Vec3) : (r • a).x = r * a.x := rfl
@[simp] theorem smul_y (r : ℝ) (a : Vec3) : (r • a).y = r * a.y := rfl
@[simp] theorem smul_z (r : ℝ) (a : Vec3) : (r • a).z = r * a.z := rfl
@[simp] theorem mk_x (a b c : ℝ) : (Vec3.mk a b c).x = a := rfl
@[simp] theorem mk_y (a b c : ℝ) : (Vec3.mk a b c).y = b := rfl
@[simp] theorem mk_z (a b c : ℝ) : (Vec3.mk a b c).z = c := rfl

/-- Eigen `dot`. -/
def dot (a b : Vec3) : ℝ := a.x * b.x + a.y * b.y + a.z * b.z

/-- Eigen `squaredNorm`. -/
def squaredNorm (a : Vec3) : ℝ := a.dot a

/-- Eigen `norm`. -/
noncomputable def norm (a : Vec3) : ℝ := Real.sqrt a.squaredNorm

/-- Eigen `cross`. -/
def cross (a b : Vec3) : Vec3 :=
  ⟨a.y * b.z - a.z * b.y, a.z * b.x - a.x * b.z, a.x * b.y - a.y * b.x⟩

/-- Eigen `normalized` (division by the Euclidean norm; on the zero vector
the model yields the zero vector where Eigen would produce NaNs — it is
only applied to nonzero vectors in the code paths covered here). -/
noncomputable def normalized (a : Vec3) : Vec3 := (1 / a.norm) • a

@[simp] theorem dot_def (a b : Vec3) :
    a.dot b = a.x * b.x + a.y * b.y + a.z * b.z := rfl

theorem squaredNorm_neg (a : Vec3) : (-a).squaredNorm = a.squaredNorm := by
  simp only [squaredNorm, dot, neg_x, neg_y, neg_z]; ring

theorem squaredNorm_sub_comm (a b : Vec3) :
    (b - a).squaredNorm = (a - b).squaredNorm := by
  simp [squaredNorm, dot]; ring

theorem norm_neg (a : Vec3) : (-a).norm = a.norm := by
  simp [norm, squaredNorm_neg]

theorem normalized_neg (a : Vec3) : (-a).normalized = -a.normalized := by
  ext <;> simp only [normalized, norm_neg, smul_x, smul_y, smul_z,
    neg_x, neg_y, neg_z] <;> ring

/-- Componentwise order on vectors (used to state box confinement). -/
def le (a b : Vec3) : Prop := a.x ≤ b.x ∧ a.y ≤ b.y ∧ a.z ≤ b.z

end Vec3

/-- An axis-aligned box, modelling `Box3f`. -/
structure Box3 where
  min : Vec3
  max : Vec3

/-- `Box3f::extents()`. -/
def Box3.extents (b : Box3) : Vec3 := b.max - b.min

/-- Modelled from the spec (§4.A): the smoothing-kernel helper of
`Kernel.h`, which is not under `src/`.  The structure holds the kernel
radius and the precomputed normalization constants the simulator reads
(`poly6Constant`, `poly6GradConstant`, `spikyGradConstant`,
`viscosityLaplaceConstant`, `surfaceTensionConstant`). -/
structure Kernel where
  h : ℝ
  h2 : ℝ
  poly6Constant : ℝ
  poly6GradConstant : ℝ
  spikyGradConstant : ℝ
  viscosityLaplaceConstant : ℝ
  surfaceTensionConstant : ℝ

namespace Kernel

/-- Modelled from the spec (§4.A): `Kernel::init(h)` with the spec's
normalization constants. -/
noncomputable def init (h : ℝ) : Kernel where
  h := h
  h2 := h ^ 2
  poly6Constant := 315 / (64 * Real.pi * h ^ 9)
  poly6GradConstant := -945 / (32 * Real.pi * h ^ 9)
  spikyGradConstant := -45 / (Real.pi * h ^ 6)
  viscosityLaplaceConstant := 45 / (Real.pi * h ^ 6)
  surfaceTensionConstant := 32 / (Real.pi * h ^ 9)

/-- Modelled from the spec (§4.A): `poly6(r²) = (h² − r²)³`, zero outside
the support. -/
def poly6 (k : Kernel) (r2 : ℝ) : ℝ :=
  if r2 ≤ k.h2 then (k.h2 - r2) ^ 3 else 0

/-- Modelled from the spec (§4.A): `poly6_grad(r, r²) = r · (h² − r²)²`,
zero outside the support. -/
def poly6Grad (k : Kernel) (r : Vec3) (r2 : ℝ) : Vec3 :=
  if r2 ≤ k.h2 then ((k.h2 - r2) ^ 2) • r else 0

/-- Modelled from the spec (§4.A): `spiky_grad(r, |r|) = (r/|r|)·(h − |r|)²`,
zero outside the support. -/
def spikyGrad (k : Kernel) (r : Vec3) (rn : ℝ) : Vec3 :=
  if rn ≤ k.h then ((k.h - rn) ^ 2 / rn) • r else 0

/-- Modelled from the spec (§4.A): `viscosity_laplace(|r|) = h − |r|`,
zero outside the support. -/
def viscosityLaplace (k : Kernel) (rn : ℝ) : ℝ :=
  if rn ≤ k.h then k.h - rn else 0

/-- Modelled from the spec (§4.A): the Akinci C²-continuous surface-tension
kernel, piecewise on `|r| ≤ h/2` versus `h/2 < |r| ≤ h`, zero outside. -/
def surfaceTension (k : Kernel) (rn : ℝ) : ℝ :=
  if rn ≤ k.h / 2 then 2 * (k.h - rn) ^ 3 * rn ^ 3 - k.h ^ 6 / 64
  else if rn ≤ k.h then (k.h - rn) ^ 3 * rn ^ 3
  else 0

end Kernel

/-- The user-tunable simulation inputs read by the `SPH` constructor from
the scene: particle radius, rest density, gravity and world bounds. -/
structure SPHConfig where
  particleRadius : ℝ
  restDensity : ℝ
  gravity : Vec3
  bounds : Box3

namespace SPHConfig

/-- `_particleDiameter = 2 * _particleRadius`. -/
def particleDiameter (c : SPHConfig) : ℝ := 2 * c.particleRadius

/-- `_kernelRadius = 4 * _particleRadius`. -/
def kernelRadius (c : SPHConfig) : ℝ := 4 * c.particleRadius

/-- `_kernelRadius2 = sqr(_kernelRadius)`. -/
def kernelRadius2 (c : SPHConfig) : ℝ := c.kernelRadius ^ 2

/-- `_particleMass = _restDensity / cube(1 / _particleDiameter)`. -/
def particleMass (c : SPHConfig) : ℝ :=
  c.restDensity / (1 / c.particleDiameter) ^ 3

/-- `_particleMass2 = sqr(_particleMass)`. -/
def particleMass2 (c : SPHConfig) : ℝ := c.particleMass ^ 2

/-- `wcsph.gamma = 7`. -/
def wcsphGamma : ℝ := 7

/-- `wcsph.cs = 10`. -/
def wcsphCs : ℝ := 10

/-- `wcsph.viscosity = 0.005`. -/
def wcsphViscosity : ℝ := 0.005

/-- `wcsph.B = _restDensity * sqr(wcsph.cs) / wcsph.gamma`. -/
def wcsphB (c : SPHConfig) : ℝ := c.restDensity * wcsphCs ^ 2 / wcsphGamma

/-- `wcsph.dt = min(0.25 h / (m · 9.81), 0.4 h / (cs · (1 + 0.6 ν)))`,
set in the constructor. -/
def wcsphDt (c : SPHConfig) : ℝ :=
  min (0.25 * c.kernelRadius / (c.particleMass * 9.81))
    (0.4 * c.kernelRadius / (wcsphCs * (1 + 0.6 * wcsphViscosity)))

/-- `_maxTimestep = 1e-3`, assigned unconditionally in the constructor;
`maxTimestep()` returns this field. -/
def maxTimestep (_c : SPHConfig) : ℝ := 1e-3

/-- `_kernel.init(_kernelRadius)`. -/
noncomputable def kernel (c : SPHConfig) : Kernel := Kernel.init c.kernelRadius

end SPHConfig

/-- The fluid-particle buffers of the `SPH` class (structure of arrays) and
the accumulated simulation time `_t`. -/
structure SPHState where
  positions : List Vec3
  velocities : List Vec3
  normals : List Vec3
  forces : List Vec3
  densities : List ℝ
  pressures : List ℝ
  time : ℝ

/-- Modelled from the spec (§4.B): the hash-grid `lookup` of `Grid.h`
(not under `src/`) yields every candidate index whose cell intersects the
query ball, and is complete; composed with the `r² < kernelRadius²`
filter of `SPH::iterateNeighbours`, the net neighbourhood visited is all
indices `j` with `|p − x_j|² < kernelRadius²`.  Each entry carries
`(j, r, r²)` as passed to the callback. -/
def neighbours (c : SPHConfig) (ps : List Vec3) (p : Vec3) :
    List (ℕ × Vec3 × ℝ) :=
  (List.range ps.length).filterMap fun j =>
    let r := p - ps.getD j 0
    let r2 := r.squaredNorm
    if r2 < c.kernelRadius2 then some (j, r, r2) else none

/-- `SPH::computeDensity`: per particle, sum `poly6(r²)` over the
neighbourhood, scale by `mass · poly6Constant`, and derive the Tait
pressure `B · (t·t·t·t·t·t·t − 1)` with `t = ρ/ρ₀`. -/
def computeDensity (c : SPHConfig) (s : SPHState) : SPHState :=
  let n := s.positions.length
  let dens := (List.range n).map fun i =>
    let acc := ((neighbours c s.positions (s.positions.getD i 0)).map
      fun jrr => c.kernel.poly6 jrr.2.2).sum
    acc * (c.particleMass * c.kernel.poly6Constant)
  let pres := dens.map fun density =>
    let t := density / c.restDensity
    c.wcsphB * ((t * t) * (t * t) * (t * t) * t - 1)
  { s with densities := dens, pressures := pres }

/-- `SPH::computeNormals`: `n_i = h · m · poly6GradConstant ·
Σ poly6_grad(r, r²) / ρ_j`. -/
def computeNormals (c : SPHConfig) (s : SPHState) : SPHState :=
  let n := s.positions.length
  let nrm := (List.range n).map fun i =>
    let acc := ((neighbours c s.positions (s.positions.getD i 0)).map
      fun jrr => (1 / s.densities.getD jrr.1 0) •
        c.kernel.poly6Grad jrr.2.1 jrr.2.2).sum
    (c.kernelRadius * c.particleMass * c.kernel.poly6GradConstant) • acc
  { s with normals := nrm }

/-- The WCSPH pressure-force contribution of neighbour `j` on particle `i`
inside `SPH::computeForces`:
`−m² · (p_i/ρ_i² + p_j/ρ_j²) · spikyGradConstant · spiky_grad(r, |r|)`,
guarded by `r² < kernelRadius²` and `r² > 1e-5`. -/
def pressureForcePair (c : SPHConfig) (dens pres : List ℝ) (ps : List Vec3)
    (i j : ℕ) : Vec3 :=
  let r := ps.getD i 0 - ps.getD j 0
  let r2 := r.squaredNorm
  if r2 < c.kernelRadius2 ∧ r2 > 1e-5 then
    (-(c.particleMass2 *
        (pres.getD i 0 / (dens.getD i 0) ^ 2 +
          pres.getD j 0 / (dens.getD j 0) ^ 2) *
        c.kernel.spikyGradConstant)) •
      c.kernel.spikyGrad r (Real.sqrt r2)
  else 0

/-- The four running accumulators of the `SPH::computeForces` inner loop. -/
structure ForceAccum where
  force : Vec3
  forceViscosity : Vec3
  forceCohesion : Vec3
  forceCurvature : Vec3

/-- One neighbour visit of the `SPH::computeForces` inner loop for particle
`i`: accumulate the pressure, viscosity, cohesion and curvature terms when
`r² < kernelRadius²` and `r² > 1e-5`; nudge the coincident neighbour by
`(1e-5, 1e-5, 1e-5)` when `r² = 0`.  The position buffer is threaded
because of that nudge (the sequential, non-TBB elaboration of the loop). -/
def forcePairStep (c : SPHConfig) (vels nrms : List Vec3) (dens pres : List ℝ)
    (i : ℕ) (st : List Vec3 × ForceAccum) (j : ℕ) : List Vec3 × ForceAccum :=
  let ps := st.1
  let acc := st.2
  if i = j then st else
  let r := ps.getD i 0 - ps.getD j 0
  let r2 := r.squaredNorm
  if r2 < c.kernelRadius2 ∧ r2 > 1e-5 then
    let rn := Real.sqrt r2
    let force := acc.force + pressureForcePair c dens pres ps i j
    let forceViscosity :=
      if dens.getD j 0 > 1e-4 then
        acc.forceViscosity -
          (c.kernel.viscosityLaplace rn / dens.getD j 0) •
            (vels.getD i 0 - vels.getD j 0)
      else acc.forceViscosity
    let correctionFactor := 2 * c.restDensity / (dens.getD i 0 + dens.getD j 0)
    let forceCohesion := acc.forceCohesion +
      (correctionFactor * c.kernel.surfaceTension rn / rn) • r
    let forceCurvature := acc.forceCurvature +
      correctionFactor • (nrms.getD i 0 - nrms.getD j 0)
    (ps, ⟨force, forceViscosity, forceCohesion, forceCurvature⟩)
  else if r2 = 0 then
    (ps.set j (ps.getD j 0 + ⟨1e-5, 1e-5, 1e-5⟩), acc)
  else st

/-- The body of `SPH::computeForces` for one particle `i`: fold the inner
loop over all candidate neighbours, apply the constant factors
(`viscosity = 0.0005`, `surfaceTension = 2`), and add gravity.  Returns the
(possibly nudged) position buffer and the accumulated force. -/
def forceParticle (c : SPHConfig) (vels nrms : List Vec3) (dens pres : List ℝ)
    (ps : List Vec3) (i : ℕ) : List Vec3 × Vec3 :=
  let res := (List.range ps.length).foldl
    (forcePairStep c vels nrms dens pres i) (ps, ⟨0, 0, 0, 0⟩)
  let acc := res.2
  let forceViscosity :=
    (0.0005 * c.particleMass * c.kernel.viscosityLaplaceConstant) •
      acc.forceViscosity
  let forceCohesion :=
    (-(2 : ℝ) * c.particleMass2 * c.kernel.surfaceTensionConstant) •
      acc.forceCohesion
  let forceCurvature := (-(2 : ℝ) * c.particleMass) • acc.forceCurvature
  let force := acc.force + (forceCohesion + forceCurvature + forceViscosity) +
    c.particleMass • c.gravity
  (res.1, force)

/-- `SPH::computeForces` (sequential elaboration): for each particle in
index order, run the inner loop and store the resulting force. -/
def computeForces (c : SPHConfig) (s : SPHState) : SPHState :=
  let n := s.positions.length
  let res := (List.range n).foldl
    (fun (st : List Vec3 × List Vec3) i =>
      let pr := forceParticle c s.velocities s.normals s.densities s.pressures
        st.1 i
      (pr.1, st.2.set i pr.2))
    (s.positions, s.forces)
  { s with positions := res.1, forces := res.2 }

/-- The semi-implicit Euler stage of `SPH::update`:
`v += (F/m)·dt; x += v·dt`. -/
def integrateStage (c : SPHConfig) (dt : ℝ) (s : SPHState) : SPHState :=
  let n := s.positions.length
  let vels := (List.range n).map fun i =>
    s.velocities.getD i 0 + dt • ((1 / c.particleMass) • s.forces.getD i 0)
  let ps := (List.range n).map fun i =>
    s.positions.getD i 0 + dt • vels.getD i 0
  { s with positions := ps, velocities := vels }

/-- The collision handler passed by `SPH::update` to
`SPH::computeCollisions`: `x += n·d; v −= (1 + c)·(v·n)·n` with
restitution `c = 0.5`. -/
def collisionResponse (n : Vec3) (d : ℝ) (pv : Vec3 × Vec3) : Vec3 × Vec3 :=
  let c : ℝ := 0.5
  (pv.1 + d • n, pv.2 - ((1 + c) * pv.2.dot n) • n)

/-- The two x-axis checks of `SPH::computeCollisions` (the position read is
a reference, so the second check sees the first response). -/
def collideX (b : Box3) (pv : Vec3 × Vec3) : Vec3 × Vec3 :=
  let pv := if pv.1.x < b.min.x then
    collisionResponse ⟨1, 0, 0⟩ (b.min.x - pv.1.x) pv else pv
  if pv.1.x > b.max.x then
    collisionResponse ⟨-1, 0, 0⟩ (pv.1.x - b.max.x) pv else pv

/-- The two y-axis checks of `SPH::computeCollisions`. -/
def collideY (b : Box3) (pv : Vec3 × Vec3) : Vec3 × Vec3 :=
  let pv := if pv.1.y < b.min.y then
    collisionResponse ⟨0, 1, 0⟩ (b.min.y - pv.1.y) pv else pv
  if pv.1.y > b.max.y then
    collisionResponse ⟨0, -1, 0⟩ (pv.1.y - b.max.y) pv else pv

/-- The two z-axis checks of `SPH::computeCollisions`. -/
def collideZ (b : Box3) (pv : Vec3 × Vec3) : Vec3 × Vec3 :=
  let pv := if pv.1.z < b.min.z then
    collisionResponse ⟨0, 0, 1⟩ (b.min.z - pv.1.z) pv else pv
  if pv.1.z > b.max.z then
    collisionResponse ⟨0, 0, -1⟩ (pv.1.z - b.max.z) pv else pv

/-- `SPH::computeCollisions` for one particle: the six face checks in
source order (x-min, x-max, y-min, y-max, z-min, z-max). -/
def collideParticle (b : Box3) (pv : Vec3 × Vec3) : Vec3 × Vec3 :=
  collideZ b (collideY b (collideX b pv))

/-- The collision stage of `SPH::update`: `computeCollisions` with the
restitution handler, applied to every particle. -/
def computeCollisionsStage (c : SPHConfig) (s : SPHState) : SPHState :=
  let pv := (s.positions.zip s.velocities).map (collideParticle c.bounds)
  { s with positions := pv.map Prod.fst, velocities := pv.map Prod.snd }

/-- Modelled from the spec (§4.B): the linear cell index of a position in
the uniform hash grid of `Grid.h` (not under `src/`):
`L = ix + cx·(iy + cy·iz)` with `(ix,iy,iz) = ⌊(x − origin)/h⌋` clamped to
the grid dimensions `⌈extent/h⌉`. -/
def cellKey (c : SPHConfig) (p : Vec3) : ℤ :=
  let h := c.kernelRadius
  let cx := ⌈c.bounds.extents.x / h⌉
  let cy := ⌈c.bounds.extents.y / h⌉
  let ix := max 0 (min (⌊(p.x - c.bounds.min.x) / h⌋) (cx - 1))
  let iy := max 0 (min (⌊(p.y - c.bounds.min.y) / h⌋) (cy - 1))
  let iz := max 0 (min (⌊(p.z - c.bounds.min.z) / h⌋) (⌈c.bounds.extents.z / h⌉ - 1))
  ix + cx * (iy + cy * iz)

/-- Stable insertion into a key-sorted list (earlier elements with equal
keys stay in front), the order produced by a counting sort. -/
def insertByKey {α : Type} (key : α → ℤ) (a : α) : List α → List α
  | [] => [a]
  | b :: bs => if key a ≤ key b then a :: b :: bs else b :: insertByKey key a bs

/-- Stable sort by key (the permutation of a counting sort). -/
def sortByKey {α : Type} (key : α → ℤ) : List α → List α
  | [] => []
  | a :: as => insertByKey key a (sortByKey key as)

/-- Modelled from the spec (§4.B, §4.G stage 1): `Grid::update` of
`Grid.h` (not under `src/`) reorders the particles into counting-sort
order of their cell index, and the swap callback keeps positions and
velocities permuted in lock-step. -/
def gridUpdateStage (c : SPHConfig) (s : SPHState) : SPHState :=
  let pv := sortByKey (fun q : Vec3 × Vec3 => cellKey c q.1)
    (s.positions.zip s.velocities)
  { s with positions := pv.map Prod.fst, velocities := pv.map Prod.snd }

/-- `SPH::update(dt)`: advance `_t` and run the six stages — grid update,
density/pressure, normals, forces, semi-implicit Euler integration,
collision projection. -/
def update (c : SPHConfig) (dt : ℝ) (s : SPHState) : SPHState :=
  let s0 := { s with time := s.time + dt }
  let s1 := gridUpdateStage c s0
  let s2 := computeDensity c s1
  let s3 := computeNormals c s2
  let s4 := computeForces c s3
  let s5 := integrateStage c dt s4
  computeCollisionsStage c s5

/-- `ParticleGenerator::Result`: parallel position and normal lists. -/
structure GenResult where
  positions : List Vec3
  normals : List Vec3

/-- The `addParticle` lambda of the box generator: position
`origin + (x, y, z)·d` (componentwise) and normal `n · normalScale` with
`normalScale = −1`. -/
def boxParticle (origin d : Vec3) (x y z : ℤ) (n : Vec3) : Vec3 × Vec3 :=
  (origin + ⟨(x : ℝ) * d.x, (y : ℝ) * d.y, (z : ℝ) * d.z⟩, (-1 : ℝ) • n)

/-- The index list of a C++ loop `for (i = 1; i < n; ++i)`. -/
def range1 (n : ℤ) : List ℤ :=
  (List.range (n - 1).toNat).map fun k : ℕ => (k : ℤ) + 1

/-- The emission loops of `ParticleGenerator::generateSurfaceParticles(Box3f)`
in source order: three pairs of face interiors, three border families, then
the eight corners. -/
def buildBoxPairs (nx ny nz : ℤ) (origin d : Vec3) : List (Vec3 × Vec3) :=
  ((range1 nx).flatMap fun x => (range1 ny).flatMap fun y =>
    [boxParticle origin d x y 0 ⟨0, 0, 1⟩,
     boxParticle origin d x y nz ⟨0, 0, -1⟩]) ++
  ((range1 nx).flatMap fun x => (range1 nz).flatMap fun z =>
    [boxParticle origin d x 0 z ⟨0, 1, 0⟩,
     boxParticle origin d x ny z ⟨0, -1, 0⟩]) ++
  ((range1 ny).flatMap fun y => (range1 nz).flatMap fun z =>
    [boxParticle origin d 0 y z ⟨1, 0, 0⟩,
     boxParticle origin d nx y z ⟨-1, 0, 0⟩]) ++
  ((range1 nx).flatMap fun x =>
    [boxParticle origin d x 0 0 (Vec3.normalized ⟨0, 1, 1⟩),
     boxParticle origin d x ny 0 (Vec3.normalized ⟨0, -1, 1⟩),
     boxParticle origin d x 0 nz (Vec3.normalized ⟨0, 1, -1⟩),
     boxParticle origin d x ny nz (Vec3.normalized ⟨0, -1, -1⟩)]) ++
  ((range1 ny).flatMap fun y =>
    [boxParticle origin d 0 y 0 (Vec3.normalized ⟨1, 0, 1⟩),
     boxParticle origin d nx y 0 (Vec3.normalized ⟨-1, 0, 1⟩),
     boxParticle origin d 0 y nz (Vec3.normalized ⟨1, 0, -1⟩),
     boxParticle origin d nx y nz (Vec3.normalized ⟨-1, 0, -1⟩)]) ++
  ((range1 nz).flatMap fun z =>
    [boxParticle origin d 0 0 z (Vec3.normalized ⟨1, 1, 0⟩),
     boxParticle origin d nx 0 z (Vec3.normalized ⟨-1, 1, 0⟩),
     boxParticle origin d 0 ny z (Vec3.normalized ⟨1, -1, 0⟩),
     boxParticle origin d nx ny z (Vec3.normalized ⟨-1, -1, 0⟩)]) ++
  ((List.range 8).map fun cIdx =>
    let xb := cIdx % 2
    let yb := cIdx / 2 % 2
    let zb := cIdx / 4 % 2
    boxParticle origin d (if xb = 1 then 0 else nx) (if yb = 1 then 0 else ny)
      (if zb = 1 then 0 else nz)
      (Vec3.normalized ⟨if xb = 1 then 1 else -1, if yb = 1 then 1 else -1,
        if zb = 1 then 1 else -1⟩))

/-- `ParticleGenerator::generateSurfaceParticles(Box3f, particleRadius)`:
counts `(nx, ny, nz) = ⌈extents / (2·particleRadius)⌉`, actual step
`d = extents ⊘ (nx, ny, nz)`, then the emission loops. -/
def generateBoxSurfaceParticles (box : Box3) (particleRadius : ℝ) : GenResult :=
  let origin := box.min
  let extents := box.extents
  let nx : ℤ := ⌈extents.x / (2 * particleRadius)⌉
  let ny : ℤ := ⌈extents.y / (2 * particleRadius)⌉
  let nz : ℤ := ⌈extents.z / (2 * particleRadius)⌉
  let d : Vec3 := ⟨extents.x / (nx : ℝ), extents.y / (ny : ℝ), extents.z / (nz : ℝ)⟩
  let pairs := buildBoxPairs nx ny nz origin d
  ⟨pairs.map Prod.fst, pairs.map Prod.snd⟩

/-- The outward-normal reading of the box generator's output, written from
the amended C6 claim: axis-aligned outward unit normals on face interiors,
the normalised sum of the two incident outward face normals on edge
samples, the normalised sum of the three incident outward face normals on
corner samples, emitted in generator order. -/
def buildBoxOutwardNormals (nx ny nz : ℤ) : List Vec3 :=
  ((range1 nx).flatMap fun _ => (range1 ny).flatMap fun _ =>
    [(⟨0, 0, -1⟩ : Vec3), ⟨0, 0, 1⟩]) ++
  ((range1 nx).flatMap fun _ => (range1 nz).flatMap fun _ =>
    [(⟨0, -1, 0⟩ : Vec3), ⟨0, 1, 0⟩]) ++
  ((range1 ny).flatMap fun _ => (range1 nz).flatMap fun _ =>
    [(⟨-1, 0, 0⟩ : Vec3), ⟨1, 0, 0⟩]) ++
  ((range1 nx).flatMap fun _ =>
    [Vec3.normalized ((⟨0, -1, 0⟩ : Vec3) + ⟨0, 0, -1⟩),
     Vec3.normalized ((⟨0, 1, 0⟩ : Vec3) + ⟨0, 0, -1⟩),
     Vec3.normalized ((⟨0, -1, 0⟩ : Vec3) + ⟨0, 0, 1⟩),
     Vec3.normalized ((⟨0, 1, 0⟩ : Vec3) + ⟨0, 0, 1⟩)]) ++
  ((range1 ny).flatMap fun _ =>
    [Vec3.normalized ((⟨-1, 0, 0⟩ : Vec3) + ⟨0, 0, -1⟩),
     Vec3.normalized ((⟨1, 0, 0⟩ : Vec3) + ⟨0, 0, -1⟩),
     Vec3.normalized ((⟨-1, 0, 0⟩ : Vec3) + ⟨0, 0, 1⟩),
     Vec3.normalized ((⟨1, 0, 0⟩ : Vec3) + ⟨0, 0, 1⟩)]) ++
  ((range1 nz).flatMap fun _ =>
    [Vec3.normalized ((⟨-1, 0, 0⟩ : Vec3) + ⟨0, -1, 0⟩),
     Vec3.normalized ((⟨1, 0, 0⟩ : Vec3) + ⟨0, -1, 0⟩),
     Vec3.normalized ((⟨-1, 0, 0⟩ : Vec3) + ⟨0, 1, 0⟩),
     Vec3.normalized ((⟨1, 0, 0⟩ : Vec3) + ⟨0, 1, 0⟩)]) ++
  ((List.range 8).map fun cIdx =>
    let xb := cIdx % 2
    let yb := cIdx / 2 % 2
    let zb := cIdx / 4 % 2
    Vec3.normalized
      ((if xb = 1 then (⟨-1, 0, 0⟩ : Vec3) else ⟨1, 0, 0⟩) +
       (if yb = 1 then (⟨0, -1, 0⟩ : Vec3) else ⟨0, 1, 0⟩) +
       (if zb = 1 then (⟨0, 0, -1⟩ : Vec3) else ⟨0, 0, 1⟩)))

/-- A deterministic random-number generator: a fixed stream of draws and a
cursor; `next` returns the draw under the cursor and advances it. -/
structure RNG where
  stream : ℕ → ℝ
  idx : ℕ

/-- `rng.nextFloat()`. -/
def RNG.next (g : RNG) : ℝ × RNG := (g.stream g.idx, ⟨g.stream, g.idx + 1⟩)

/-- Modelled from the spec: the vendored `pcg32` header is not under
`src/`; this is the 64-bit LCG state sequence of a default-constructed
`pcg32` (fixed seed constants). -/
def pcg32State : ℕ → ℕ
  | 0 => 0x853c49e6748fea9b
  | k + 1 => (pcg32State k * 6364136223846793005 + 0xda3e39cb94b95bdb) % 2 ^ 64

/-- Modelled from the spec: the `pcg32` output permutation
(xorshift-high followed by a random 32-bit rotation). -/
def pcg32Output (state : ℕ) : ℕ :=
  let xorshifted := (((state >>> 18) ^^^ state) >>> 27) % 2 ^ 32
  let rot := state >>> 59
  ((xorshifted >>> rot) ||| ((xorshifted <<< ((32 - rot) % 32)) % 2 ^ 32)) % 2 ^ 32

/-- Modelled from the spec: the `k`-th `nextFloat()` draw of a
default-constructed `pcg32` (top 23 output bits over `2²³`). -/
def pcg32Float (k : ℕ) : ℝ := ((pcg32Output (pcg32State k) >>> 9 : ℕ) : ℝ) / 2 ^ 23

/-- The default-constructed `pcg32 rng` of the mesh generator as a fixed
draw stream at cursor 0. -/
def pcg32DefaultRNG : RNG := ⟨fun k => pcg32Float k, 0⟩

/-- A triangle of the input mesh, as the three vertex positions the
generator reads from the vertex/index matrices. -/
def Tri : Type := Vec3 × Vec3 × Vec3

/-- The triangle area computed by the seeding loop:
`0.5 · |‖e0 × e1‖|`. -/
def triangleArea (tri : Tri) : ℝ :=
  let e0 := tri.2.1 - tri.1
  let e1 := tri.2.2 - tri.1
  0.5 * |(e0.cross e1).norm|

/-- The `samplePoint` lambda: draw `s` and `t`, map to the triangle by
`p0 + e0·t·√s + e1·(1 − √s)`. -/
def sampleTrianglePoint (p0 e0 e1 : Vec3) (g : RNG) : Vec3 × RNG :=
  let sg := g.next
  let tg := sg.2.next
  let ss := Real.sqrt sg.1
  (p0 + (tg.1 * ss) • e0 + (1 - ss) • e1, tg.2)

/-- The deterministic part of the per-triangle seeding loop:
`ni` consecutive `samplePoint` calls. -/
def sampleN (p0 e0 e1 : Vec3) : ℕ → RNG → List Vec3 × RNG
  | 0, g => ([], g)
  | k + 1, g =>
    let q := sampleTrianglePoint p0 e0 e1 g
    let rest := sampleN p0 e0 e1 k q.2
    (q.1 :: rest.1, rest.2)

/-- The per-triangle body of the seeding stage of
`ParticleGenerator::generateSurfaceParticles(Mesh)`: `n = density · area`,
`ni = int(floor(n))` samples, then one extra sample when the next draw
satisfies `u < n`. -/
def seedTriangle (density : ℝ) (tri : Tri) (g : RNG) : List Vec3 × RNG :=
  let p0 := tri.1
  let e0 := tri.2.1 - p0
  let e1 := tri.2.2 - p0
  let n := density * triangleArea tri
  let ni := (⌊n⌋).toNat
  let res := sampleN p0 e0 e1 ni g
  let ug := res.2.next
  if ug.1 < n then
    let q := sampleTrianglePoint p0 e0 e1 ug.2
    (res.1 ++ [q.1], q.2)
  else (res.1, ug.2)

/-- The seeding stage over all triangles, also accumulating `totalArea`. -/
def seedAll (density : ℝ) (tris : List Tri) (g : RNG) :
    List Vec3 × ℝ × RNG :=
  tris.foldl (fun st tri =>
    let res := seedTriangle density tri st.2.2
    (st.1 ++ res.1, st.2.1 + triangleArea tri, res.2)) ([], 0, g)

/-- Modelled from the spec (§4.C): the voxel-grid signed-distance-field
interface the generator consumes (`VoxelGrid`/`SDF.h` are not under
`src/`): voxel-space conversion, trilinear sampling and gradient. -/
structure SDFGrid where
  toVoxelSpace : Vec3 → Vec3
  trilinear : Vec3 → ℝ
  gradient : Vec3 → Vec3

/-- One inner pairwise-repulsion visit `(i, j)` of a relaxation sweep:
if `r² < radius²`, push `i` and `j` apart along the unit separation with
weight `0.01 · (1 − r²/radius²)³`. -/
def relaxInner (radius2 : ℝ) (i : ℕ) (pv : List Vec3 × List Vec3) (j : ℕ) :
    List Vec3 × List Vec3 :=
  let ps := pv.1
  let vs := pv.2
  let r := ps.getD j 0 - ps.getD i 0
  let r2 := r.squaredNorm
  if r2 < radius2 then
    let rhat := (1 / Real.sqrt r2) • r
    let weight := 0.01 * (1 - r2 / radius2) ^ 3
    (ps, (vs.set i (vs.getD i 0 - weight • rhat)).set j
      (vs.getD j 0 + weight • rhat))
  else pv

/-- The outer relaxation body for particle `i`: visit all `j > i`, then
apply the accumulated displacement to `positions[i]` (inside the `i`
loop, as in the source). -/
def relaxParticle (radius2 : ℝ) (n : ℕ) (pv : List Vec3 × List Vec3)
    (i : ℕ) : List Vec3 × List Vec3 :=
  let pv := ((List.range n).drop (i + 1)).foldl (relaxInner radius2 i) pv
  (pv.1.set i (pv.1.getD i 0 + pv.2.getD i 0), pv.2)

/-- One relaxation sweep: fresh zero displacement buffer, the pairwise
loop, then SDF reprojection `x ← x − φ(x) · ∇̂φ(x)` of every particle. -/
def relaxIteration (sdf : SDFGrid) (radius2 : ℝ) (ps : List Vec3) :
    List Vec3 :=
  let n := ps.length
  let pv := (List.range n).foldl (relaxParticle radius2 n)
    (ps, List.replicate n 0)
  (List.range n).foldl (fun qs i =>
    let p := sdf.toVoxelSpace (qs.getD i 0)
    let nrm := (sdf.gradient p).normalized
    qs.set i (qs.getD i 0 - sdf.trilinear p • nrm)) pv.1

/-- `Box3f::expanded(extents · 0.1)`: grow the mesh bounds by 10% on each
side. -/
def expandBox (b : Box3) : Box3 :=
  ⟨b.min - (0.1 : ℝ) • b.extents, b.max + (0.1 : ℝ) • b.extents⟩

/-- `Mesh::computeBounds()`: the componentwise bounding box of all
vertices (an empty mesh yields the empty box at the origin). -/
def meshBounds (tris : List Tri) : Box3 :=
  let vs := tris.flatMap fun t => [t.1, t.2.1, t.2.2]
  match vs with
  | [] => ⟨0, 0⟩
  | v :: rest => rest.foldl (fun b q =>
      ⟨⟨min b.min.x q.x, min b.min.y q.y, min b.min.z q.z⟩,
       ⟨max b.max.x q.x, max b.max.y q.y, max b.max.z q.z⟩⟩) ⟨v, v⟩

/-- `bounds.extents()[bounds.majorAxis()]`: the largest extent. -/
def majorExtent (b : Box3) : ℝ :=
  max b.extents.x (max b.extents.y b.extents.z)

/-- `ParticleGenerator::generateSurfaceParticles(Mesh, particleRadius,
cells)`: sample density `1/(π r²)`, SDF over the expanded bounds (the
field construction `SDF::build` is not under `src/` and is passed in as a
deterministic builder), area-weighted seeding from the default-seeded
RNG, ten relaxation sweeps, and SDF-gradient normals. -/
def generateMeshSurfaceParticles (build : List Tri → Box3 → ℝ → SDFGrid)
    (mesh : List Tri) (particleRadius : ℝ) (cells : ℕ) : GenResult :=
  let density := 1 / (Real.pi * particleRadius ^ 2)
  let bounds := expandBox (meshBounds mesh)
  let cellSize := majorExtent bounds / (cells : ℝ)
  let sdf := build mesh bounds cellSize
  let seeded := seedAll density mesh pcg32DefaultRNG
  let positions := seeded.1
  let radius := Real.sqrt (seeded.2.1 / (positions.length : ℝ) * 10 / Real.pi)
  let radius2 := radius ^ 2
  let ps := (relaxIteration sdf radius2)^[10] positions
  ⟨ps, ps.map fun p => (sdf.gradient (sdf.toVoxelSpace p)).normalized⟩

/-! ### Helper lemmas -/

theorem Vec3.sub_self_eq (a : Vec3) : a - a = 0 := by
  ext <;> simp

theorem Vec3.squaredNorm_zero : (0 : Vec3).squaredNorm = 0 := by
  simp [Vec3.squaredNorm]

theorem Vec3.smul_zero_eq (s : ℝ) : s • (0 : Vec3) = 0 := by
  ext <;> simp

theorem Vec3.add_zero_eq (a : Vec3) : a + 0 = a := by
  ext <;> simp

theorem Vec3.zero_add_eq (a : Vec3) : 0 + a = a := by
  ext <;> simp

theorem Vec3.neg_one_smul_eq (a : Vec3) : (-1 : ℝ) • a = -a := by
  ext <;> simp

theorem Vec3.smul_neg_eq (s : ℝ) (a : Vec3) : s • (-a) = -(s • a) := by
  ext <;> simp

theorem getD_map_range {α : Type} (n : ℕ) (f : ℕ → α) (i : ℕ) (d : α)
    (hi : i < n) : ((List.range n).map f).getD i d = f i := by
  rw [List.getD_eq_getElem?_getD, List.getElem?_map, List.getElem?_range hi]
  rfl

theorem collideX_fst_y (b : Box3) (pv : Vec3 × Vec3) :
    (collideX b pv).1.y = pv.1.y := by
  unfold collideX collisionResponse
  split_ifs <;> simp <;> split_ifs <;> simp

theorem collideX_fst_z (b : Box3) (pv : Vec3 × Vec3) :
    (collideX b pv).1.z = pv.1.z := by
  unfold collideX collisionResponse
  split_ifs <;> simp <;> split_ifs <;> simp

theorem collideY_fst_x (b : Box3) (pv : Vec3 × Vec3) :
    (collideY b pv).1.x = pv.1.x := by
  unfold collideY collisionResponse
  split_ifs <;> simp <;> split_ifs <;> simp

theorem collideY_fst_z (b : Box3) (pv : Vec3 × Vec3) :
    (collideY b pv).1.z = pv.1.z := by
  unfold collideY collisionResponse
  split_ifs <;> simp <;> split_ifs <;> simp

theorem collideZ_fst_x (b : Box3) (pv : Vec3 × Vec3) :
    (collideZ b pv).1.x = pv.1.x := by
  unfold collideZ collisionResponse
  split_ifs <;> simp <;> split_ifs <;> simp

theorem collideZ_fst_y (b : Box3) (pv : Vec3 × Vec3) :
    (collideZ b pv).1.y = pv.1.y := by
  unfold collideZ collisionResponse
  split_ifs <;> simp <;> split_ifs <;> simp

theorem collideX_x_mem (b : Box3) (pv : Vec3 × Vec3)
    (hb : b.min.x ≤ b.max.x) :
    b.min.x ≤ (collideX b pv).1.x ∧ (collideX b pv).1.x ≤ b.max.x := by
  unfold collideX collisionResponse
  split_ifs <;> simp <;> split_ifs <;>
    first
    | exact ⟨by simp <;> linarith, by simp <;> linarith⟩
    | linarith
    | exact ⟨by linarith, by linarith⟩

theorem collideY_y_mem (b : Box3) (pv : Vec3 × Vec3)
    (hb : b.min.y ≤ b.max.y) :
    b.min.y ≤ (collideY b pv).1.y ∧ (collideY b pv).1.y ≤ b.max.y := by
  unfold collideY collisionResponse
  split_ifs <;> simp <;> split_ifs <;>
    first
    | exact ⟨by simp <;> linarith, by simp <;> linarith⟩
    | linarith
    | exact ⟨by linarith, by linarith⟩

theorem collideZ_z_mem (b : Box3) (pv : Vec3 × Vec3)
    (hb : b.min.z ≤ b.max.z) :
    b.min.z ≤ (collideZ b pv).1.z ∧ (collideZ b pv).1.z ≤ b.max.z := by
  unfold collideZ collisionResponse
  split_ifs <;> simp <;> split_ifs <;>
    first
    | exact ⟨by simp <;> linarith, by simp <;> linarith⟩
    | linarith
    | exact ⟨by linarith, by linarith⟩

/-- After the six sequential face checks the position is inside the box
(provided the box is well-formed). -/
theorem collideParticle_in_bounds (b : Box3) (pv : Vec3 × Vec3)
    (hb : b.min.le b.max) :
    b.min.le (collideParticle b pv).1 ∧ (collideParticle b pv).1.le b.max := by
  obtain ⟨hbx, hby, hbz⟩ := hb
  have hx := collideX_x_mem b pv hbx
  have hy := collideY_y_mem b (collideX b pv) hby
  have hz := collideZ_z_mem b (collideY b (collideX b pv)) hbz
  have hx2 : (collideY b (collideX b pv)).1.x = (collideX b pv).1.x :=
    collideY_fst_x b (collideX b pv)
  have hx3 := collideZ_fst_x b (collideY b (collideX b pv))
  have hy3 := collideZ_fst_y b (collideY b (collideX b pv))
  unfold collideParticle
  constructor <;> refine ⟨?_, ?_, ?_⟩ <;>
    (try simp only [hx3, hy3, hx2]) <;> tauto

/-- A particle already inside the box is untouched by the collision pass. -/
theorem collideParticle_id (b : Box3) (q w : Vec3)
    (hlo : b.min.le q) (hhi : q.le b.max) : collideParticle b (q, w) = (q, w) := by
  unfold collideParticle collideX collideY collideZ
  rw [if_neg (not_lt.mpr hlo.1)]
  rw [if_neg (not_lt.mpr hhi.1)]
  rw [if_neg (not_lt.mpr hlo.2.1)]
  rw [if_neg (not_lt.mpr hhi.2.1)]
  rw [if_neg (not_lt.mpr hlo.2.2)]
  rw [if_neg (not_lt.mpr hhi.2.2)]

theorem collideX_id (b : Box3) (pv : Vec3 × Vec3)
    (h1 : b.min.x ≤ pv.1.x) (h2 : pv.1.x ≤ b.max.x) : collideX b pv = pv := by
  unfold collideX
  rw [if_neg (not_lt.mpr h1), if_neg (not_lt.mpr h2)]

theorem collideY_id (b : Box3) (pv : Vec3 × Vec3)
    (h1 : b.min.y ≤ pv.1.y) (h2 : pv.1.y ≤ b.max.y) : collideY b pv = pv := by
  unfold collideY
  rw [if_neg (not_lt.mpr h1), if_neg (not_lt.mpr h2)]

theorem collideZ_id (b : Box3) (pv : Vec3 × Vec3)
    (h1 : b.min.z ≤ pv.1.z) (h2 : pv.1.z ≤ b.max.z) : collideZ b pv = pv := by
  unfold collideZ
  rw [if_neg (not_lt.mpr h1), if_neg (not_lt.mpr h2)]

/-- The C++ default scene parameters (`_particleRadius = 0.01`,
`_restDensity = 1000`, `_gravity = (0, −9.81, 0)`) with a 2×2×2 world
box, used as a concrete instance below. -/
def defaultConfig : SPHConfig :=
  ⟨0.01, 1000, ⟨0, -9.81, 0⟩, ⟨⟨-1, -1, -1⟩, ⟨1, 1, 1⟩⟩⟩

/-- A configuration with a small particle radius whose CFL bound
`wcsph.dt` lies strictly below `1e-3`. -/
def smallRadiusConfig : SPHConfig :=
  ⟨0.001, 1000, ⟨0, -9.81, 0⟩, ⟨⟨-1, -1, -1⟩, ⟨1, 1, 1⟩⟩⟩

/-! ### Claim theorems -/

/-- C2: after `update(Δt)` returns, every fluid particle position
satisfies `bounds.min ≤ x_i ≤ bounds.max` componentwise — the final
collision stage projects each out-of-bounds coordinate back onto the
corresponding face of the (well-formed) world box. -/
theorem update_in_bounds (c : SPHConfig) (dt : ℝ) (s : SPHState)
    (hb : c.bounds.min.le c.bounds.max) :
    ∀ p ∈ (update c dt s).positions,
      c.bounds.min.le p ∧ p.le c.bounds.max := by
  intro p hp
  simp only [update, computeCollisionsStage] at hp
  rcases List.mem_map.mp hp with ⟨q, hq, rfl⟩
  rcases List.mem_map.mp hq with ⟨pv, hpv, rfl⟩
  exact collideParticle_in_bounds c.bounds pv hb

/-- Witness for C2: the default configuration has a well-formed box, and
a one-particle step stays confined. -/
theorem update_in_bounds_witness :
    defaultConfig.bounds.min.le defaultConfig.bounds.max ∧
    ∀ p ∈ (update defaultConfig (1/100)
        ⟨[0], [0], [0], [0], [0], [0], 0⟩).positions,
      defaultConfig.bounds.min.le p ∧ p.le defaultConfig.bounds.max :=
  ⟨⟨by norm_num [defaultConfig], by norm_num [defaultConfig],
      by norm_num [defaultConfig]⟩,
    update_in_bounds defaultConfig (1/100) ⟨[0], [0], [0], [0], [0], [0], 0⟩
      ⟨by norm_num [defaultConfig], by norm_num [defaultConfig],
        by norm_num [defaultConfig]⟩⟩

/-- C3: for each axis and each side, a particle whose coordinate lies
outside `[bounds.min, bounds.max]` on exactly that face receives
`x += n·d` and `v −= (1 + c)·(v·n)·n`, where `n` is the inward
axis-aligned unit normal of the violated face, `d` the penetration depth,
and the restitution coefficient is `c = 0.5`. -/
theorem collision_response_faces (b : Box3) (pv : Vec3 × Vec3)
    (hb : b.min.le b.max) :
    (pv.1.x < b.min.x → b.min.y ≤ pv.1.y → pv.1.y ≤ b.max.y →
      b.min.z ≤ pv.1.z → pv.1.z ≤ b.max.z →
      collideParticle b pv =
        (pv.1 + (b.min.x - pv.1.x) • ⟨1, 0, 0⟩,
         pv.2 - ((1 + 0.5) * pv.2.dot ⟨1, 0, 0⟩) • ⟨1, 0, 0⟩)) ∧
    (pv.1.x > b.max.x → b.min.y ≤ pv.1.y → pv.1.y ≤ b.max.y →
      b.min.z ≤ pv.1.z → pv.1.z ≤ b.max.z →
      collideParticle b pv =
        (pv.1 + (pv.1.x - b.max.x) • ⟨-1, 0, 0⟩,
         pv.2 - ((1 + 0.5) * pv.2.dot ⟨-1, 0, 0⟩) • ⟨-1, 0, 0⟩)) ∧
    (b.min.x ≤ pv.1.x → pv.1.x ≤ b.max.x → pv.1.y < b.min.y →
      b.min.z ≤ pv.1.z → pv.1.z ≤ b.max.z →
      collideParticle b pv =
        (pv.1 + (b.min.y - pv.1.y) • ⟨0, 1, 0⟩,
         pv.2 - ((1 + 0.5) * pv.2.dot ⟨0, 1, 0⟩) • ⟨0, 1, 0⟩)) ∧
    (b.min.x ≤ pv.1.x → pv.1.x ≤ b.max.x → pv.1.y > b.max.y →
      b.min.z ≤ pv.1.z → pv.1.z ≤ b.max.z →
      collideParticle b pv =
        (pv.1 + (pv.1.y - b.max.y) • ⟨0, -1, 0⟩,
         pv.2 - ((1 + 0.5) * pv.2.dot ⟨0, -1, 0⟩) • ⟨0, -1, 0⟩)) ∧
    (b.min.x ≤ pv.1.x → pv.1.x ≤ b.max.x → b.min.y ≤ pv.1.y →
      pv.1.y ≤ b.max.y → pv.1.z < b.min.z →
      collideParticle b pv =
        (pv.1 + (b.min.z - pv.1.z) • ⟨0, 0, 1⟩,
         pv.2 - ((1 + 0.5) * pv.2.dot ⟨0, 0, 1⟩) • ⟨0, 0, 1⟩)) ∧
    (b.min.x ≤ pv.1.x → pv.1.x ≤ b.max.x → b.min.y ≤ pv.1.y →
      pv.1.y ≤ b.max.y → pv.1.z > b.max.z →
      collideParticle b pv =
        (pv.1 + (pv.1.z - b.max.z) • ⟨0, 0, -1⟩,
         pv.2 - ((1 + 0.5) * pv.2.dot ⟨0, 0, -1⟩) • ⟨0, 0, -1⟩)) := by
  obtain ⟨hbx, hby, hbz⟩ := hb
  refine ⟨?_, ?_, ?_, ?_, ?_, ?_⟩
  · intro h1 h2 h3 h4 h5
    have e1 : collideX b pv =
        collisionResponse ⟨1, 0, 0⟩ (b.min.x - pv.1.x) pv := by
      unfold collideX
      rw [if_pos h1, if_neg (by simp [collisionResponse]; linarith)]
    unfold collideParticle
    rw [e1, collideY_id b _ (by simp [collisionResponse]; linarith)
        (by simp [collisionResponse]; linarith),
      collideZ_id b _ (by simp [collisionResponse]; linarith)
        (by simp [collisionResponse]; linarith)]
    simp [collisionResponse]
  · intro h1 h2 h3 h4 h5
    have e1 : collideX b pv =
        collisionResponse ⟨-1, 0, 0⟩ (pv.1.x - b.max.x) pv := by
      unfold collideX
      rw [if_neg (not_lt.mpr (le_trans hbx (le_of_lt h1))), if_pos h1]
    unfold collideParticle
    rw [e1, collideY_id b _ (by simp [collisionResponse]; linarith)
        (by simp [collisionResponse]; linarith),
      collideZ_id b _ (by simp [collisionResponse]; linarith)
        (by simp [collisionResponse]; linarith)]
    simp [collisionResponse]
  · intro h1 h2 h3 h4 h5
    have e1 : collideY b pv =
        collisionResponse ⟨0, 1, 0⟩ (b.min.y - pv.1.y) pv := by
      unfold collideY
      rw [if_pos h3, if_neg (by simp [collisionResponse]; linarith)]
    unfold collideParticle
    rw [collideX_id b pv h1 h2, e1,
      collideZ_id b _ (by simp [collisionResponse]; linarith)
        (by simp [collisionResponse]; linarith)]
    simp [collisionResponse]
  · intro h1 h2 h3 h4 h5
    have e1 : collideY b pv =
        collisionResponse ⟨0, -1, 0⟩ (pv.1.y - b.max.y) pv := by
      unfold collideY
      rw [if_neg (not_lt.mpr (le_trans hby (le_of_lt h3))), if_pos h3]
    unfold collideParticle
    rw [collideX_id b pv h1 h2, e1,
      collideZ_id b _ (by simp [collisionResponse]; linarith)
        (by simp [collisionResponse]; linarith)]
    simp [collisionResponse]
  · intro h1 h2 h3 h4 h5
    have e1 : collideZ b pv =
        collisionResponse ⟨0, 0, 1⟩ (b.min.z - pv.1.z) pv := by
      unfold collideZ
      rw [if_pos h5, if_neg (by simp [collisionResponse]; linarith)]
    unfold collideParticle
    rw [collideX_id b pv h1 h2, collideY_id b pv h3 h4, e1]
    simp [collisionResponse]
  · intro h1 h2 h3 h4 h5
    have e1 : collideZ b pv =
        collisionResponse ⟨0, 0, -1⟩ (pv.1.z - b.max.z) pv := by
      unfold collideZ
      rw [if_neg (not_lt.mpr (le_trans hbz (le_of_lt h5))), if_pos h5]
    unfold collideParticle
    rw [collideX_id b pv h1 h2, collideY_id b pv h3 h4, e1]
    simp [collisionResponse]

/-- Witness for C3: a particle below the floor of the default box gets
the y-min face response. -/
theorem collision_response_faces_witness :
    (defaultConfig.bounds.min.le defaultConfig.bounds.max ∧
      defaultConfig.bounds.min.x ≤ (Vec3.mk 0 (-2) 0).x ∧
      (Vec3.mk 0 (-2) 0).x ≤ defaultConfig.bounds.max.x ∧
      (Vec3.mk 0 (-2) 0).y < defaultConfig.bounds.min.y ∧
      defaultConfig.bounds.min.z ≤ (Vec3.mk 0 (-2) 0).z ∧
      (Vec3.mk 0 (-2) 0).z ≤ defaultConfig.bounds.max.z) ∧
    collideParticle defaultConfig.bounds (⟨0, -2, 0⟩, ⟨0, -3, 0⟩) =
      ((⟨0, -2, 0⟩ : Vec3) + (defaultConfig.bounds.min.y - (Vec3.mk 0 (-2) 0).y) • ⟨0, 1, 0⟩,
       (⟨0, -3, 0⟩ : Vec3) -
         ((1 + 0.5) * (Vec3.mk 0 (-3) 0).dot ⟨0, 1, 0⟩) • ⟨0, 1, 0⟩) :=
  ⟨⟨⟨by norm_num [defaultConfig], by norm_num [defaultConfig],
      by norm_num [defaultConfig]⟩,
    by norm_num [defaultConfig], by norm_num [defaultConfig],
    by norm_num [defaultConfig], by norm_num [defaultConfig],
    by norm_num [defaultConfig]⟩,
   (collision_response_faces defaultConfig.bounds (⟨0, -2, 0⟩, ⟨0, -3, 0⟩)
      ⟨by norm_num [defaultConfig], by norm_num [defaultConfig],
        by norm_num [defaultConfig]⟩).2.2.1
    (by norm_num [defaultConfig]) (by norm_num [defaultConfig])
    (by norm_num [defaultConfig]) (by norm_num [defaultConfig])
    (by norm_num [defaultConfig])⟩

/-- C4 (amended): `maxTimestep()` returns the constant `1e-3` for every
configuration; the claimed formula `min(wcsph.dt, 1e-3)` agrees with it
exactly when the CFL bound `wcsph.dt` is at least `1e-3`. -/
theorem maxTimestep_is_constant (c : SPHConfig) :
    c.maxTimestep = 1e-3 ∧
    (min c.wcsphDt c.maxTimestep = c.maxTimestep ↔ 1e-3 ≤ c.wcsphDt) := by
  refine ⟨rfl, ?_⟩
  rw [SPHConfig.maxTimestep]
  exact min_eq_right_iff

/-- Counterexample for C4: with particle radius `0.001` the CFL minimum
is about `1.595·10⁻⁴ < 10⁻³`, yet `maxTimestep()` still returns `1e-3`,
so it does not equal the capped CFL minimum claimed. -/
theorem maxTimestep_counterexample :
    SPHConfig.maxTimestep smallRadiusConfig ≠
      min (min (0.25 * smallRadiusConfig.kernelRadius /
            (smallRadiusConfig.particleMass * smallRadiusConfig.gravity.norm))
          (0.4 * smallRadiusConfig.kernelRadius /
            (SPHConfig.wcsphCs * (1 + 0.6 * SPHConfig.wcsphViscosity)))) 1e-3 := by
  have hg : smallRadiusConfig.gravity.norm = 9.81 := by
    rw [show smallRadiusConfig.gravity = ⟨0, -9.81, 0⟩ from rfl, Vec3.norm,
      show (Vec3.mk 0 (-9.81) 0).squaredNorm = 9.81 ^ 2 by
        simp [Vec3.squaredNorm]; norm_num]
    exact Real.sqrt_sq (by norm_num)
  rw [hg]
  simp only [SPHConfig.maxTimestep, SPHConfig.kernelRadius,
    SPHConfig.particleMass, SPHConfig.particleDiameter, SPHConfig.wcsphCs,
    SPHConfig.wcsphViscosity, smallRadiusConfig]
  norm_num [min_def]

theorem spikyGrad_neg (k : Kernel) (r : Vec3) (rn : ℝ) :
    k.spikyGrad (-r) rn = -(k.spikyGrad r rn) := by
  unfold Kernel.spikyGrad
  split_ifs
  · exact Vec3.smul_neg_eq _ _
  · ext <;> simp

/-- C9: in an isolated pair with equal densities and equal pressures, the
pressure-force contribution of the force stage is exactly antisymmetric:
the term particle 0 accumulates from particle 1 is the negation of the one
particle 1 accumulates from particle 0. -/
theorem pressure_force_pair_antisymmetric (c : SPHConfig) (ρ pr : ℝ)
    (a b : Vec3) :
    pressureForcePair c [ρ, ρ] [pr, pr] [a, b] 0 1 =
      -(pressureForcePair c [ρ, ρ] [pr, pr] [a, b] 1 0) := by
  unfold pressureForcePair
  simp only [List.getD_cons_zero, List.getD_cons_succ]
  have hsub : b - a = -(a - b) := by ext <;> simp
  rw [hsub, Vec3.squaredNorm_neg, spikyGrad_neg]
  split_ifs with h
  · rw [Vec3.smul_neg_eq]
    ext <;> simp
  · ext <;> simp

theorem filterMap_ite_sum (n : ℕ) (p : ℕ → Prop) [DecidablePred p]
    (g : ℕ → ℝ) :
    ((List.range n).filterMap fun j => if p j then some (g j) else none).sum =
      ∑ j ∈ (Finset.range n).filter p, g j := by
  induction n with
  | zero => simp
  | succ m ih =>
    rw [List.range_succ, List.filterMap_append, List.sum_append,
      Finset.range_succ, Finset.filter_insert]
    by_cases hp : p m
    · rw [if_pos hp, Finset.sum_insert (by simp)]
      simp only [List.filterMap, if_pos hp, List.sum_cons, List.sum_nil, ih]
      ring
    · rw [if_neg hp]
      simp only [List.filterMap, if_neg hp, List.sum_nil, ih]
      ring

theorem neighbours_sum (c : SPHConfig) (ps : List Vec3) (p : Vec3)
    (f : ℝ → ℝ) :
    ((neighbours c ps p).map fun jrr => f jrr.2.2).sum =
      ∑ j ∈ (Finset.range ps.length).filter
        (fun j => (p - ps.getD j 0).squaredNorm < c.kernelRadius2),
        f ((p - ps.getD j 0).squaredNorm) := by
  unfold neighbours
  rw [List.map_filterMap]
  rw [show (fun j => Option.map (fun jrr : ℕ × Vec3 × ℝ => f jrr.2.2)
      (if (p - ps.getD j 0).squaredNorm < c.kernelRadius2 then
        some (j, p - ps.getD j 0, (p - ps.getD j 0).squaredNorm) else none)) =
      fun j => if (p - ps.getD j 0).squaredNorm < c.kernelRadius2 then
        some (f ((p - ps.getD j 0).squaredNorm)) else none from
    funext fun j => by split_ifs <;> rfl]
  exact filterMap_ite_sum ps.length _ _

theorem getD_map_of_lt {α β : Type} (l : List α) (g : α → β) (i : ℕ)
    (d : α) (d2 : β) (hi : i < l.length) :
    (l.map g).getD i d2 = g (l.getD i d) := by
  rw [List.getD_eq_getElem?_getD, List.getElem?_map,
    List.getD_eq_getElem?_getD, List.getElem?_eq_getElem hi]
  rfl

/-- C1: the density stage stores
`ρ_i = poly6Constant · m · Σ_{j : |x_i − x_j|² < h²} poly6(|x_i − x_j|²)`,
a sum that includes `j = i` itself, and stores the un-clamped Tait
pressure `p_i = B·((ρ_i/ρ₀)⁷ − 1)`. -/
theorem density_pressure_formula (c : SPHConfig) (s : SPHState) (i : ℕ)
    (hi : i < s.positions.length) (hr : 0 < c.particleRadius) :
    (computeDensity c s).densities.getD i 0 =
        c.kernel.poly6Constant * c.particleMass *
          ∑ j ∈ (Finset.range s.positions.length).filter
            (fun j => (s.positions.getD i 0 - s.positions.getD j 0).squaredNorm
              < c.kernelRadius2),
            c.kernel.poly6
              ((s.positions.getD i 0 - s.positions.getD j 0).squaredNorm) ∧
      i ∈ (Finset.range s.positions.length).filter
            (fun j => (s.positions.getD i 0 - s.positions.getD j 0).squaredNorm
              < c.kernelRadius2) ∧
      (computeDensity c s).pressures.getD i 0 =
        c.wcsphB *
          (((computeDensity c s).densities.getD i 0 / c.restDensity) ^ 7 - 1) := by
  have hmem : i ∈ (Finset.range s.positions.length).filter
      (fun j => (s.positions.getD i 0 - s.positions.getD j 0).squaredNorm
        < c.kernelRadius2) := by
    refine Finset.mem_filter.mpr ⟨Finset.mem_range.mpr hi, ?_⟩
    rw [Vec3.sub_self_eq, Vec3.squaredNorm_zero, SPHConfig.kernelRadius2,
      SPHConfig.kernelRadius]
    positivity
  have hdens : (computeDensity c s).densities =
      (List.range s.positions.length).map fun k =>
        (((neighbours c s.positions (s.positions.getD k 0)).map
          fun jrr => c.kernel.poly6 jrr.2.2).sum) *
          (c.particleMass * c.kernel.poly6Constant) := rfl
  have hpres : (computeDensity c s).pressures =
      ((computeDensity c s).densities).map fun density =>
        c.wcsphB * ((density / c.restDensity * (density / c.restDensity)) *
          (density / c.restDensity * (density / c.restDensity)) *
          (density / c.restDensity * (density / c.restDensity)) *
          (density / c.restDensity) - 1) := rfl
  refine ⟨?_, hmem, ?_⟩
  · rw [hdens, getD_map_range _ _ _ _ hi, neighbours_sum]
    ring
  · rw [hpres, getD_map_of_lt _ _ _ 0 _ (by rw [hdens]; simpa using hi)]
    ring

/-- Witness for C1: the default configuration on a one-particle state. -/
theorem density_pressure_formula_witness :
    0 < (⟨[0], [0], [0], [0], [0], [0], 0⟩ : SPHState).positions.length ∧
    0 < defaultConfig.particleRadius ∧
    ((computeDensity defaultConfig ⟨[0], [0], [0], [0], [0], [0], 0⟩).densities.getD 0 0 =
        defaultConfig.kernel.poly6Constant * defaultConfig.particleMass *
          ∑ j ∈ (Finset.range (⟨[0], [0], [0], [0], [0], [0], 0⟩ : SPHState).positions.length).filter
            (fun j => ((⟨[0], [0], [0], [0], [0], [0], 0⟩ : SPHState).positions.getD 0 0 -
                (⟨[0], [0], [0], [0], [0], [0], 0⟩ : SPHState).positions.getD j 0).squaredNorm
              < defaultConfig.kernelRadius2),
            defaultConfig.kernel.poly6
              (((⟨[0], [0], [0], [0], [0], [0], 0⟩ : SPHState).positions.getD 0 0 -
                (⟨[0], [0], [0], [0], [0], [0], 0⟩ : SPHState).positions.getD j 0).squaredNorm) ∧
      0 ∈ (Finset.range (⟨[0], [0], [0], [0], [0], [0], 0⟩ : SPHState).positions.length).filter
            (fun j => ((⟨[0], [0], [0], [0], [0], [0], 0⟩ : SPHState).positions.getD 0 0 -
                (⟨[0], [0], [0], [0], [0], [0], 0⟩ : SPHState).positions.getD j 0).squaredNorm
              < defaultConfig.kernelRadius2) ∧
      (computeDensity defaultConfig ⟨[0], [0], [0], [0], [0], [0], 0⟩).pressures.getD 0 0 =
        defaultConfig.wcsphB *
          (((computeDensity defaultConfig ⟨[0], [0], [0], [0], [0], [0], 0⟩).densities.getD 0 0 /
            defaultConfig.restDensity) ^ 7 - 1)) :=
  ⟨by simp, by norm_num [defaultConfig],
    density_pressure_formula defaultConfig ⟨[0], [0], [0], [0], [0], [0], 0⟩ 0
      (by simp) (by norm_num [defaultConfig])⟩

theorem sum_map_const {α : Type} (l : List α) (k : ℕ) :
    (l.map fun _ => k).sum = k * l.length := by
  induction l with
  | nil => simp
  | cons a as ih => simp [ih, Nat.mul_succ]; ring

theorem range1_length (n : ℤ) : (range1 n).length = (n - 1).toNat := by
  unfold range1
  rw [List.length_map, List.length_range]

theorem buildBoxPairs_length (nx ny nz : ℤ) (o d : Vec3) :
    (buildBoxPairs nx ny nz o d).length =
      2 * ((nx - 1).toNat * (ny - 1).toNat) +
      2 * ((nx - 1).toNat * (nz - 1).toNat) +
      2 * ((ny - 1).toNat * (nz - 1).toNat) +
      4 * (nx - 1).toNat + 4 * (ny - 1).toNat + 4 * (nz - 1).toNat + 8 := by
  unfold buildBoxPairs
  simp only [List.length_append, List.length_flatMap, List.map_map,
    List.length_cons, List.length_nil, List.length_map,
    Function.comp_def, sum_map_const, range1_length, List.length_range]
  ring

/-- The unit axis-aligned box `[0,1]³`. -/
def unitBox : Box3 := ⟨⟨0, 0, 0⟩, ⟨1, 1, 1⟩⟩

theorem genBox_unit_eval :
    generateBoxSurfaceParticles unitBox (1/20) =
      ⟨(buildBoxPairs 10 10 10 ⟨0, 0, 0⟩ ⟨1/10, 1/10, 1/10⟩).map Prod.fst,
       (buildBoxPairs 10 10 10 ⟨0, 0, 0⟩ ⟨1/10, 1/10, 1/10⟩).map Prod.snd⟩ := by
  have hext : unitBox.extents = ⟨1, 1, 1⟩ := by
    unfold unitBox Box3.extents
    ext <;> simp
  unfold generateBoxSurfaceParticles
  rw [hext]
  have hmin : unitBox.min = ⟨0, 0, 0⟩ := rfl
  simp only [Vec3.mk_x, Vec3.mk_y, Vec3.mk_z]
  norm_num
  exact ⟨by rw [hmin], by rw [hmin]⟩

@[simp] theorem boxParticle_snd (o d : Vec3) (x y z : ℤ) (n : Vec3) :
    (boxParticle o d x y z n).2 = (-1 : ℝ) • n := rfl

theorem Vec3.smul_mk (r a b c : ℝ) :
    r • (Vec3.mk a b c) = ⟨r * a, r * b, r * c⟩ := rfl

theorem Vec3.mk_add_mk (a b c d e f : ℝ) :
    Vec3.mk a b c + Vec3.mk d e f = ⟨a + d, b + e, c + f⟩ := rfl

theorem smul_neg_one_normalized (a b c : ℝ) :
    (-1 : ℝ) • (Vec3.mk a b c).normalized = (Vec3.mk (-a) (-b) (-c)).normalized := by
  rw [show Vec3.mk (-a) (-b) (-c) = -(Vec3.mk a b c) from by ext <;> simp,
    Vec3.normalized_neg, Vec3.neg_one_smul_eq]

theorem buildBoxPairs_normals (nx ny nz : ℤ) (o d : Vec3) :
    (buildBoxPairs nx ny nz o d).map Prod.snd = buildBoxOutwardNormals nx ny nz := by
  unfold buildBoxPairs buildBoxOutwardNormals
  simp only [show (List.range 8) = [0, 1, 2, 3, 4, 5, 6, 7] from by decide]
  simp only [List.map_append, List.map_flatMap, List.map_cons, List.map_nil,
    boxParticle_snd, smul_neg_one_normalized, Vec3.smul_mk, Vec3.mk_add_mk]
  norm_num
  simp only [Vec3.mk_add_mk]
  norm_num

/-- C8: for the unit box with particle radius `1/20` (so `n = 10` per
axis) the box-surface generator emits exactly `6·81 + 12·9 + 8 = 602`
boundary particles. -/
theorem box_count_602 :
    (generateBoxSurfaceParticles unitBox (1/20)).positions.length = 602 := by
  rw [congrArg GenResult.positions genBox_unit_eval, List.length_map,
    buildBoxPairs_length]
  decide

theorem buildBox_unit_getD0 :
    (buildBoxPairs 10 10 10 ⟨0, 0, 0⟩ ⟨1/10, 1/10, 1/10⟩).getD 0 (0, 0) =
      boxParticle ⟨0, 0, 0⟩ ⟨1/10, 1/10, 1/10⟩ 1 1 0 ⟨0, 0, 1⟩ := by
  have hcons : range1 10 = 1 :: [2, 3, 4, 5, 6, 7, 8, 9] := by decide
  unfold buildBoxPairs
  rw [hcons, List.flatMap_cons, List.flatMap_cons]
  simp only [List.cons_append, List.nil_append, List.getD_cons_zero]

/-- C6 (amended): the box generator's normals are the claimed
combinations of *outward* face normals — axis-aligned outward on face
interiors, the normalised sum of the two (resp. three) incident outward
face normals on edges (resp. corners) — the generator multiplies every
inward combination by `normalScale = −1`. -/
theorem box_normals_outward (box : Box3) (r : ℝ) :
    (generateBoxSurfaceParticles box r).normals =
      buildBoxOutwardNormals ⌈box.extents.x / (2 * r)⌉ ⌈box.extents.y / (2 * r)⌉
        ⌈box.extents.z / (2 * r)⌉ :=
  buildBoxPairs_normals _ _ _ _ _

/-- Counterexample for C6: the first boundary sample of the unit box lies
at `(0.1, 0.1, 0)`, on the interior of the `z = min.z` face whose inward
normal is `(0, 0, 1)`; the emitted normal is `(0, 0, −1)`, the outward
one, so the claim that every emitted normal is inward-pointing fails. -/
theorem box_normal_counterexample :
    (generateBoxSurfaceParticles unitBox (1/20)).normals.getD 0 0 = ⟨0, 0, -1⟩ ∧
    (generateBoxSurfaceParticles unitBox (1/20)).positions.getD 0 0 = ⟨1/10, 1/10, 0⟩ ∧
    (generateBoxSurfaceParticles unitBox (1/20)).normals.getD 0 0 ≠ ⟨0, 0, 1⟩ := by
  have hlen : 0 < (buildBoxPairs 10 10 10 ⟨0, 0, 0⟩ ⟨1/10, 1/10, 1/10⟩).length := by
    rw [buildBoxPairs_length]; decide
  have h1 : (generateBoxSurfaceParticles unitBox (1/20)).normals.getD 0 0 =
      ⟨0, 0, -1⟩ := by
    rw [congrArg GenResult.normals genBox_unit_eval,
      getD_map_of_lt _ _ _ (0, 0) _ hlen, buildBox_unit_getD0]
    ext <;> simp [boxParticle]
  have h2 : (generateBoxSurfaceParticles unitBox (1/20)).positions.getD 0 0 =
      ⟨1/10, 1/10, 0⟩ := by
    rw [congrArg GenResult.positions genBox_unit_eval,
      getD_map_of_lt _ _ _ (0, 0) _ hlen, buildBox_unit_getD0]
    ext <;> simp [boxParticle]
  refine ⟨h1, h2, ?_⟩
  rw [h1]
  intro hEq
  have hz := congrArg Vec3.z hEq
  norm_num at hz

theorem sampleN_spec (p0 e0 e1 : Vec3) (k : ℕ) (g : RNG) :
    (sampleN p0 e0 e1 k g).1.length = k ∧
    (sampleN p0 e0 e1 k g).2 = ⟨g.stream, g.idx + 2 * k⟩ := by
  induction k generalizing g with
  | zero => exact ⟨rfl, by cases g; simp [sampleN]⟩
  | succ m ih =>
    simp only [sampleN, sampleTrianglePoint, RNG.next]
    refine ⟨by simp [(ih _).1], ?_⟩
    rw [(ih _).2]
    simp only [RNG.mk.injEq]
    exact ⟨trivial, by ring⟩

/-- C7 (amended): the per-triangle seeding emits `⌊ρ_s·A_t⌋` samples and
then one additional sample exactly when the next RNG draw `u` satisfies
`u < ρ_s·A_t` — the comparison is against `ρ_s·A_t` itself, not against
its fractional part, so for `ρ_s·A_t ≥ 1` the extra sample is always
emitted (draws lie in `[0, 1)`). -/
theorem seedTriangle_count (density : ℝ) (tri : Tri) (g : RNG) :
    (seedTriangle density tri g).1.length =
      (⌊density * triangleArea tri⌋).toNat +
        if g.stream (g.idx + 2 * (⌊density * triangleArea tri⌋).toNat) <
            density * triangleArea tri then 1 else 0 := by
  obtain ⟨hlen, hrng⟩ := sampleN_spec tri.1 (tri.2.1 - tri.1) (tri.2.2 - tri.1)
    (⌊density * triangleArea tri⌋).toNat g
  simp only [seedTriangle]
  rw [hrng]
  simp only [RNG.next]
  split_ifs with h
  · simp [hlen]
  · simp [hlen]

/-- A constant draw stream with every draw `0.7`, at cursor 0. -/
def constStream : RNG := ⟨fun _ => 7/10, 0⟩

/-- A triangle of area `3/2` in the `z = 0` plane. -/
def flatTriangle : Tri := (⟨0, 0, 0⟩, ⟨2, 0, 0⟩, ⟨0, 3/2, 0⟩)

theorem flatTriangle_area : triangleArea flatTriangle = 3/2 := by
  have hcross : ((Vec3.mk 2 0 0 - ⟨0, 0, 0⟩).cross (Vec3.mk 0 (3/2) 0 - ⟨0, 0, 0⟩)) =
      ⟨0, 0, 3⟩ := by
    ext <;> (simp [Vec3.cross]; try norm_num)
  show 0.5 * |((Vec3.mk 2 0 0 - ⟨0, 0, 0⟩).cross (Vec3.mk 0 (3/2) 0 - ⟨0, 0, 0⟩)).norm| = 3/2
  rw [hcross, Vec3.norm,
    show (Vec3.mk 0 0 3).squaredNorm = 3 ^ 2 from by simp [Vec3.squaredNorm]; norm_num,
    Real.sqrt_sq (by norm_num)]
  norm_num

theorem seed_density_one :
    (1 / (Real.pi * Real.sqrt (1 / Real.pi) ^ 2)) = 1 := by
  have hp : Real.pi * (1 / Real.pi) = 1 := mul_one_div_cancel Real.pi_ne_zero
  rw [Real.sq_sqrt (by positivity), hp]
  norm_num

/-- Counterexample for C7: with particle radius `√(1/π)` the sample
density `1/(π r_p²)` is 1; on a triangle of area `3/2` the draw
`u = 0.7` satisfies `u ≥ frac(3/2) = 0.5`, so the claim prescribes
`⌊3/2⌋ = 1` sample — but the code compares `u < 3/2` and emits 2. -/
theorem seed_extra_sample_counterexample :
    (seedTriangle (1 / (Real.pi * Real.sqrt (1 / Real.pi) ^ 2)) flatTriangle
        constStream).1.length = 2 ∧
    ((⌊(1 / (Real.pi * Real.sqrt (1 / Real.pi) ^ 2)) * triangleArea flatTriangle⌋).toNat +
        if constStream.stream 2 <
            Int.fract ((1 / (Real.pi * Real.sqrt (1 / Real.pi) ^ 2)) *
              triangleArea flatTriangle) then 1 else 0) = 1 := by
  rw [seed_density_one, flatTriangle_area]
  constructor
  · simp only [seedTriangle, flatTriangle_area]
    rw [show (1 : ℝ) * (3/2) = 3/2 from by norm_num]
    rw [show (⌊(3 : ℝ)/2⌋) = 1 from by norm_num]
    rw [show Int.toNat 1 = 1 from rfl]
    obtain ⟨hl, hr⟩ := sampleN_spec flatTriangle.1 (flatTriangle.2.1 - flatTriangle.1)
      (flatTriangle.2.2 - flatTriangle.1) 1 constStream
    rw [hr]
    rw [if_pos (by norm_num [RNG.next, constStream] :
      ((RNG.mk constStream.stream (constStream.idx + 2 * 1)).next.1 < (3 : ℝ)/2))]
    simp [hl]
  · rw [show (1 : ℝ) * (3/2) = 3/2 from by norm_num]
    rw [show Int.fract ((3 : ℝ)/2) = 1/2 from by
      rw [Int.fract, show (⌊(3 : ℝ)/2⌋) = 1 from by norm_num]; norm_num]
    rw [if_neg (by norm_num [constStream] : ¬ constStream.stream 2 < (1 : ℝ)/2)]
    norm_num

/-- C10: the mesh-surface generator is a deterministic function of the
mesh, the particle radius and the SDF cell count: the RNG is the fixed,
default-seeded pcg32 stream, the SDF builder is a deterministic
component, and the seeding/relaxation/orientation loops are serial, so
two calls on equal inputs return identical position and normal lists. -/
theorem mesh_generator_deterministic (build : List Tri → Box3 → ℝ → SDFGrid)
    (m1 m2 : List Tri) (r1 r2 : ℝ) (c1 c2 : ℕ)
    (hm : m1 = m2) (hr : r1 = r2) (hc : c1 = c2) :
    generateMeshSurfaceParticles build m1 r1 c1 =
      generateMeshSurfaceParticles build m2 r2 c2 := by
  rw [hm, hr, hc]

/-- Witness for C10 at a concrete builder, mesh, radius and cell count. -/
theorem mesh_generator_deterministic_witness :
    ([flatTriangle] : List Tri) = [flatTriangle] ∧ (1 : ℝ) = 1 ∧
      (500 : ℕ) = 500 ∧
    generateMeshSurfaceParticles
        (fun _ _ _ => ⟨fun p => p, fun _ => 0, fun _ => ⟨0, 0, 1⟩⟩)
        [flatTriangle] 1 500 =
      generateMeshSurfaceParticles
        (fun _ _ _ => ⟨fun p => p, fun _ => 0, fun _ => ⟨0, 0, 1⟩⟩)
        [flatTriangle] 1 500 :=
  ⟨rfl, rfl, rfl,
    mesh_generator_deterministic
      (fun _ _ _ => ⟨fun p => p, fun _ => 0, fun _ => ⟨0, 0, 1⟩⟩)
      [flatTriangle] [flatTriangle] 1 1 500 500 rfl rfl rfl⟩

/-- Evaluation of one `update` step on a single free particle: the grid
stage is the identity permutation, no pair terms arise, the force is
exactly `m·g`, integration advances with the *passed* `dt`, and the
collision stage is the identity when the result stays inside the box. -/
theorem update_singleton (c : SPHConfig) (p v n0 f0 : Vec3) (ρ0 pr0 t0 dt : ℝ)
    (hm : c.particleMass ≠ 0)
    (hlo : c.bounds.min.le (p + dt • (v + dt • c.gravity)))
    (hhi : (p + dt • (v + dt • c.gravity)).le c.bounds.max) :
    (update c dt ⟨[p], [v], [n0], [f0], [ρ0], [pr0], t0⟩).positions =
        [p + dt • (v + dt • c.gravity)] ∧
    (update c dt ⟨[p], [v], [n0], [f0], [ρ0], [pr0], t0⟩).velocities =
        [v + dt • c.gravity] := by
  have hu : update c dt ⟨[p], [v], [n0], [f0], [ρ0], [pr0], t0⟩ =
      computeCollisionsStage c (integrateStage c dt (computeForces c
        (computeNormals c (computeDensity c (gridUpdateStage c
          ⟨[p], [v], [n0], [f0], [ρ0], [pr0], t0 + dt⟩))))) := rfl
  have hsP : (computeNormals c (computeDensity c (gridUpdateStage c
      (⟨[p], [v], [n0], [f0], [ρ0], [pr0], t0 + dt⟩ : SPHState)))).positions = [p] := rfl
  have hsF : (computeNormals c (computeDensity c (gridUpdateStage c
      (⟨[p], [v], [n0], [f0], [ρ0], [pr0], t0 + dt⟩ : SPHState)))).forces = [f0] := rfl
  have h4f : (computeForces c (computeNormals c (computeDensity c (gridUpdateStage c
      (⟨[p], [v], [n0], [f0], [ρ0], [pr0], t0 + dt⟩ : SPHState))))).forces =
      [c.particleMass • c.gravity] := by
    simp only [computeForces, hsP, hsF, List.length_singleton,
      show List.range 1 = [0] from rfl, List.foldl_cons, List.foldl_nil,
      forceParticle, forcePairStep, reduceIte, List.set_cons_zero]
    simp only [Vec3.smul_zero_eq, Vec3.add_zero_eq, Vec3.zero_add_eq]
  have h4p : (computeForces c (computeNormals c (computeDensity c (gridUpdateStage c
      (⟨[p], [v], [n0], [f0], [ρ0], [pr0], t0 + dt⟩ : SPHState))))).positions = [p] := rfl
  have h4v : (computeForces c (computeNormals c (computeDensity c (gridUpdateStage c
      (⟨[p], [v], [n0], [f0], [ρ0], [pr0], t0 + dt⟩ : SPHState))))).velocities = [v] := rfl
  have hinner : (1 / c.particleMass) • (c.particleMass • c.gravity) = c.gravity := by
    ext <;> simp <;> field_simp
  have hIv : (integrateStage c dt (computeForces c (computeNormals c (computeDensity c
      (gridUpdateStage c (⟨[p], [v], [n0], [f0], [ρ0], [pr0], t0 + dt⟩ : SPHState)))))).velocities =
      [v + dt • c.gravity] := by
    simp only [integrateStage, h4p, h4v, h4f, List.length_singleton,
      show List.range 1 = [0] from rfl, List.map_cons, List.map_nil,
      List.getD_cons_zero, hinner]
  have hIp : (integrateStage c dt (computeForces c (computeNormals c (computeDensity c
      (gridUpdateStage c (⟨[p], [v], [n0], [f0], [ρ0], [pr0], t0 + dt⟩ : SPHState)))))).positions =
      [p + dt • (v + dt • c.gravity)] := by
    simp only [integrateStage, h4p, h4v, h4f, List.length_singleton,
      show List.range 1 = [0] from rfl, List.map_cons, List.map_nil,
      List.getD_cons_zero, hinner]
  rw [hu]
  constructor
  · simp only [computeCollisionsStage, hIp, hIv,
      List.zip_cons_cons, List.zip_nil_right, List.map_cons, List.map_nil,
      collideParticle_id _ _ _ hlo hhi]
  · simp only [computeCollisionsStage, hIp, hIv,
      List.zip_cons_cons, List.zip_nil_right, List.map_cons, List.map_nil,
      collideParticle_id _ _ _ hlo hhi]

/-- C5 (amended): `update(Δt)` applies the passed `Δt` exactly as given —
there is no clamping against `Δt_max` and no failure: a single free
particle integrates to `x + Δt·(v + Δt·g)` and `v + Δt·g` for every
`Δt`, including `Δt > maxTimestep()`. -/
theorem update_uses_unclamped_dt (c : SPHConfig) (p v n0 f0 : Vec3)
    (ρ0 pr0 t0 dt : ℝ) (hm : c.particleMass ≠ 0)
    (hlo : c.bounds.min.le (p + dt • (v + dt • c.gravity)))
    (hhi : (p + dt • (v + dt • c.gravity)).le c.bounds.max) :
    (update c dt ⟨[p], [v], [n0], [f0], [ρ0], [pr0], t0⟩).positions =
        [p + dt • (v + dt • c.gravity)] ∧
    (update c dt ⟨[p], [v], [n0], [f0], [ρ0], [pr0], t0⟩).velocities =
        [v + dt • c.gravity] :=
  update_singleton c p v n0 f0 ρ0 pr0 t0 dt hm hlo hhi

/-- Witness for C5's amended theorem at `dt = 1/500 > maxTimestep`. -/
theorem update_uses_unclamped_dt_witness :
    defaultConfig.particleMass ≠ 0 ∧
    defaultConfig.bounds.min.le
      ((0 : Vec3) + (1/500 : ℝ) • ((0 : Vec3) + (1/500 : ℝ) • defaultConfig.gravity)) ∧
    ((0 : Vec3) + (1/500 : ℝ) • ((0 : Vec3) + (1/500 : ℝ) • defaultConfig.gravity)).le
      defaultConfig.bounds.max ∧
    ((update defaultConfig (1/500) ⟨[0], [0], [0], [0], [0], [0], 0⟩).positions =
        [(0 : Vec3) + (1/500 : ℝ) • ((0 : Vec3) + (1/500 : ℝ) • defaultConfig.gravity)] ∧
      (update defaultConfig (1/500) ⟨[0], [0], [0], [0], [0], [0], 0⟩).velocities =
        [(0 : Vec3) + (1/500 : ℝ) • defaultConfig.gravity]) :=
  ⟨by norm_num [SPHConfig.particleMass, SPHConfig.particleDiameter, defaultConfig],
   by refine ⟨?_, ?_, ?_⟩ <;> norm_num [defaultConfig],
   by refine ⟨?_, ?_, ?_⟩ <;> norm_num [defaultConfig],
   update_uses_unclamped_dt defaultConfig 0 0 0 0 0 0 0 (1/500)
     (by norm_num [SPHConfig.particleMass, SPHConfig.particleDiameter, defaultConfig])
     (by refine ⟨?_, ?_, ?_⟩ <;> norm_num [defaultConfig])
     (by refine ⟨?_, ?_, ?_⟩ <;> norm_num [defaultConfig])⟩

/-- Counterexample for C5: with `Δt = 1/500 > Δt_max = 1e-3`, a single
free particle lands at `y = −9.81·(1/500)²` under `update(Δt)` but at
`y = −9.81·(1e-3)²` under `update(min(Δt, Δt_max))`; the two states
differ, so `update(Δt)` does not equal `update(min(Δt, Δt_max))`. -/
theorem update_not_clamped :
    update defaultConfig (1/500) ⟨[0], [0], [0], [0], [0], [0], 0⟩ ≠
      update defaultConfig (min (1/500) (defaultConfig.maxTimestep))
        ⟨[0], [0], [0], [0], [0], [0], 0⟩ := by
  have hm1 : defaultConfig.particleMass ≠ 0 := by
    norm_num [SPHConfig.particleMass, SPHConfig.particleDiameter, defaultConfig]
  have hmin : min (1/500 : ℝ) (defaultConfig.maxTimestep) = 1e-3 := by
    rw [SPHConfig.maxTimestep]; norm_num [min_def]
  rw [hmin]
  intro hEq
  have h1 := (update_singleton defaultConfig 0 0 0 0 0 0 0 (1/500) hm1
    (by refine ⟨?_, ?_, ?_⟩ <;> norm_num [defaultConfig])
    (by refine ⟨?_, ?_, ?_⟩ <;> norm_num [defaultConfig])).1
  have h2 := (update_singleton defaultConfig 0 0 0 0 0 0 0 (1e-3) hm1
    (by refine ⟨?_, ?_, ?_⟩ <;> norm_num [defaultConfig])
    (by refine ⟨?_, ?_, ?_⟩ <;> norm_num [defaultConfig])).1
  have hpos := congrArg SPHState.positions hEq
  rw [h1, h2] at hpos
  simp only [List.cons.injEq, and_true] at hpos
  have hy := congrArg Vec3.y hpos
  simp only [Vec3.add_y, Vec3.smul_y, Vec3.zero_y,
    show defaultConfig.gravity = ⟨0, -9.81, 0⟩ from rfl, Vec3.mk_y] at hy
  norm_num at hy

end

end PBS
